import Mathlib

/-!
Shallow embedding of `src/static/app.js` (Kachelgenerator client).

Numbers (JS doubles holding coordinates, scales and font sizes) are modelled
as rationals; strings as `String`; the mutable singleton `state` object as the
structure `EditorState`, with event handlers as pure state-transition
functions.  Calls into the DOM (setting slider values, rebuilding option
lists) touch no `state` field and are omitted; drawing-context calls are
modelled as an emitted list of `SurfaceOp`.
-/

/-- Icon record as served by `GET /api/icons`: `id`, `name`, `preview_url`. -/
structure Icon where
  id : String
  name : String
  preview_url : String
deriving DecidableEq, Repr

/-- Color record as served by `GET /api/colors`. -/
structure ColorRec where
  name : String
  hex : String
deriving DecidableEq, Repr

/-- Point in canvas coordinates, as the `{x, y}` objects of app.js. -/
structure Point where
  x : ℚ
  y : ℚ
deriving DecidableEq, Repr

/-- Value of `state.dragging`: `null`, `"icon"` or `"text"` in app.js. -/
inductive DragTarget where
  | none
  | icon
  | text
deriving DecidableEq, Repr

/-- Icon part of a layout-params document: `{x, y, scale}` (app.js line 280). -/
structure IconParams where
  x : ℚ
  y : ℚ
  scale : ℚ
deriving DecidableEq, Repr

/-- Text part of a layout-params document (app.js lines 281-287). -/
structure TextParams where
  x : ℚ
  y : ℚ
  font_size : ℚ
  font_weight : String
  align : String
deriving DecidableEq, Repr

/-- Canonical layout document `{name, corner_radius_px, icon, text}`. -/
structure LayoutParams where
  name : String
  corner_radius_px : ℚ
  icon : IconParams
  text : TextParams
deriving DecidableEq, Repr

/-- Persisted preset as served by `GET /api/layout-presets`. -/
structure LayoutPreset where
  id : String
  name : String
  params : LayoutParams
deriving DecidableEq, Repr

/-- The mutable `state` object of app.js (lines 1-13), one field per key. -/
structure EditorState where
  colors : List ColorRec
  layouts : List LayoutPreset
  icons : List Icon
  selectedIcon : Option Icon
  selectedColor : String
  text : String
  iconPosition : Point
  iconScale : ℚ
  textPosition : Point
  textSize : ℚ
  dragging : DragTarget
deriving DecidableEq, Repr

/-- Initial value of `state` (app.js lines 1-13); `0.45 = 9/20`. -/
def initState : EditorState where
  colors := []
  layouts := []
  icons := []
  selectedIcon := Option.none
  selectedColor := "#6870ef"
  text := "Alarm"
  iconPosition := ⟨300, 170⟩
  iconScale := 9/20
  textPosition := ⟨60, 360⟩
  textSize := 48
  dragging := DragTarget.none

/-- The `applyLayout` function (app.js lines 72-81).  It reads
`layout.params` and overwrites the four geometric fields; the spread
`{ ...params.icon }` copies `x` and `y` (its extra `scale` key is never
read).  The two DOM slider writes and the `renderPreview()` call touch no
`state` field. -/
def applyLayout (layout : LayoutPreset) (s : EditorState) : EditorState :=
  let params := layout.params
  { s with
    iconPosition := ⟨params.icon.x, params.icon.y⟩
    iconScale := params.icon.scale
    textPosition := ⟨params.text.x, params.text.y⟩
    textSize := params.text.font_size }

/-- The `currentLayoutParams` function (app.js lines 276-289). -/
def currentLayoutParams (s : EditorState) : LayoutParams where
  name := "Custom"
  corner_radius_px := 30
  icon := ⟨s.iconPosition.x, s.iconPosition.y, s.iconScale⟩
  text := ⟨s.textPosition.x, s.textPosition.y, s.textSize, "semibold", "left"⟩

/-- Icon hit test of the `mousedown` handler (app.js lines 233-240):
the closed square of side `450 * iconScale` centered at `iconPosition`. -/
def iconHit (s : EditorState) (px py : ℚ) : Bool :=
  let iconSize := 450 * s.iconScale
  decide (s.iconPosition.x - iconSize / 2 ≤ px) &&
  decide (px ≤ s.iconPosition.x + iconSize / 2) &&
  decide (s.iconPosition.y - iconSize / 2 ≤ py) &&
  decide (py ≤ s.iconPosition.y + iconSize / 2)

/-- Text hit test of the `mousedown` handler (app.js lines 246-251); the
measured text width (`ctx.measureText`) is an input from the canvas. -/
def textHit (s : EditorState) (px py textWidth : ℚ) : Bool :=
  decide (s.textPosition.x ≤ px) &&
  decide (px ≤ s.textPosition.x + textWidth) &&
  decide (s.textPosition.y ≤ py) &&
  decide (py ≤ s.textPosition.y + s.textSize)

/-- The canvas `mousedown` handler (app.js lines 231-254): icon box is
tested first (guarded by `state.selectedIcon` being set) and returns early;
otherwise the text box is tested; a miss leaves `dragging` untouched. -/
def mousedown (s : EditorState) (px py textWidth : ℚ) : EditorState :=
  if s.selectedIcon.isSome && iconHit s px py then
    { s with dragging := DragTarget.icon }
  else if textHit s px py textWidth then
    { s with dragging := DragTarget.text }
  else s

/-- The canvas `mousemove` handler (app.js lines 256-265): while a drag
target is active its position field is overwritten with the pointer
coordinates; `renderPreview()` mutates no `state` field. -/
def mousemove (s : EditorState) (qx qy : ℚ) : EditorState :=
  match s.dragging with
  | DragTarget.none => s
  | DragTarget.icon => { s with iconPosition := ⟨qx, qy⟩ }
  | DragTarget.text => { s with textPosition := ⟨qx, qy⟩ }

/-- The canvas `mouseup` handler (app.js lines 267-269). -/
def mouseup (s : EditorState) : EditorState :=
  { s with dragging := DragTarget.none }

/-- The canvas `mouseleave` handler (app.js lines 271-273). -/
def mouseleave (s : EditorState) : EditorState :=
  { s with dragging := DragTarget.none }

/-- Drawing-context operation emitted by one render pass, in program
order: each constructor mirrors one `ctx` call of app.js. -/
inductive SurfaceOp where
  | clearRect (x y w h : ℚ)
  | save
  | roundedRectPath (x y w h radius : ℚ)
  | clip
  | setFillStyle (style : String)
  | fillRect (x y w h : ℚ)
  | restore
  | drawImage (src : String) (x y w h : ℚ)
  | setFont (weight : Nat) (size : ℚ) (family : String)
  | setTextBaseline (b : String)
  | fillText (s : String) (x y : ℚ)
deriving DecidableEq, Repr

/-- The `renderPreview` function (app.js lines 120-148), translated
statement by statement.  The body assigns to no `state` field, so the
translation returns the input state unchanged together with the ordered
list of drawing operations.  `drawRoundedRect` (lines 27-39) is the
`roundedRectPath` operation; the canvas is 450 by 450. -/
def renderPreview (s : EditorState) : EditorState × List SurfaceOp :=
  let bg : List SurfaceOp :=
    [SurfaceOp.clearRect 0 0 450 450, SurfaceOp.save,
     SurfaceOp.roundedRectPath 0 0 450 450 30, SurfaceOp.clip,
     SurfaceOp.setFillStyle s.selectedColor, SurfaceOp.fillRect 0 0 450 450,
     SurfaceOp.restore]
  let iconOps : List SurfaceOp :=
    match s.selectedIcon with
    | Option.some icon =>
        let size := 450 * s.iconScale
        [SurfaceOp.drawImage icon.preview_url (s.iconPosition.x - size / 2)
          (s.iconPosition.y - size / 2) size size]
    | Option.none => []
  let textOps : List SurfaceOp :=
    [SurfaceOp.setFillStyle "white",
     SurfaceOp.setFont 600 s.textSize "Inter, Arial, sans-serif",
     SurfaceOp.setTextBaseline "top",
     SurfaceOp.fillText s.text s.textPosition.x s.textPosition.y]
  (s, bg ++ iconOps ++ textOps)

/-- Radius of the first `roundedRectPath` operation of a render trace. -/
def clipRadius : List SurfaceOp → Option ℚ
  | [] => Option.none
  | SurfaceOp.roundedRectPath _ _ _ _ r :: _ => Option.some r
  | _ :: rest => clipRadius rest

/-- Event alphabet of the client: the handlers attached in
`attachControls` (app.js lines 150-274) plus the icon-grid click
(line 100) and the completions of the startup loads that write `state`
(`loadColors` line 42, `loadLayouts` lines 57-69, `loadIcons` line 84).
Pointer coordinates, measured text width and parsed slider values are
inputs carried by the event. -/
inductive Event where
  | mousedown (px py textWidth : ℚ)
  | mousemove (qx qy : ℚ)
  | mouseup
  | mouseleave
  | selectIcon (i : Icon)
  | textInput (t : String)
  | colorSelect (hex : String)
  | colorCustom (hex : String)
  | iconScaleInput (v : ℚ)
  | textSizeInput (v : ℚ)
  | layoutSelect (id : String)
  | loadColorsDone (cs : List ColorRec)
  | loadLayoutsDone (ls : List LayoutPreset)
  | loadIconsDone (is : List Icon)

/-- State transition of one event, each case translated from its handler:
`selectIcon` (app.js line 101), `textInput` (line 152), `colorSelect`
(line 157), `colorCustom` (line 163), `iconScaleInput` (line 168),
`textSizeInput` (line 173), `layoutSelect` (lines 192-196, a lookup in
`state.layouts` that does nothing on a miss), `loadColorsDone` (line 42),
`loadLayoutsDone` (lines 57-69: store the list, then apply the first
preset when the list is nonempty), `loadIconsDone` (line 84). -/
def step (s : EditorState) : Event → EditorState
  | Event.mousedown px py tw => mousedown s px py tw
  | Event.mousemove qx qy => mousemove s qx qy
  | Event.mouseup => mouseup s
  | Event.mouseleave => mouseleave s
  | Event.selectIcon i => { s with selectedIcon := Option.some i }
  | Event.textInput t => { s with text := t }
  | Event.colorSelect hex => { s with selectedColor := hex }
  | Event.colorCustom hex => { s with selectedColor := hex }
  | Event.iconScaleInput v => { s with iconScale := v }
  | Event.textSizeInput v => { s with textSize := v }
  | Event.layoutSelect id =>
      match s.layouts.find? (fun l => l.id == id) with
      | Option.some l => applyLayout l s
      | Option.none => s
  | Event.loadColorsDone cs => { s with colors := cs }
  | Event.loadLayoutsDone ls =>
      let s1 := { s with layouts := ls }
      match ls with
      | [] => s1
      | l :: _ => applyLayout l s1
  | Event.loadIconsDone is => { s with icons := is }

/-- States reachable from the initial state by the event transitions. -/
inductive Reachable : EditorState → Prop where
  | init : Reachable initState
  | step {s : EditorState} (e : Event) : Reachable s → Reachable (step s e)

/-- Message thrown by `fetchJSON` (app.js lines 18-25) on a non-ok
response: the `error` field of the JSON body when present and nonempty
(`message.error || "Request failed"`), else the fallback. -/
def fetchJSONErrorMessage (errorField : Option String) : String :=
  match errorField with
  | Option.some e => if e = "" then "Request failed" else e
  | Option.none => "Request failed"

/-- Observable outcome of one handler invocation whose request failed:
how many times the request was issued, which alerts were shown, and the
message of an exception that escaped the handler (an unhandled promise
rejection), if any. -/
structure HandlerOutcome where
  requestsSent : Nat
  alerts : List String
  unhandled : Option String
deriving DecidableEq, Repr

/-- Response seen by one `fetchJSON` call: ok with a body, or a failure
whose JSON body may carry an `error` field (absent when the body is not
JSON, modelled by the `.catch` returning an empty object). -/
inductive HttpResponse (α : Type) where
  | ok (body : α)
  | fail (errorField : Option String)

/-- The `fetchJSON` function (app.js lines 18-25): an ok response yields
its body; a non-ok response throws `Error(message.error || ...)`. -/
def fetchJSON {α : Type} (r : HttpResponse α) : Except String α :=
  match r with
  | HttpResponse.ok body => Except.ok body
  | HttpResponse.fail ef => Except.error (fetchJSONErrorMessage ef)

/-- Call site wrapped in `try { ... } catch (error) { alert(error.message) }`
as in the upload handler (app.js lines 184-189) and the render-button
handler (lines 211-228): a thrown message becomes one alert; the single
request is issued once either way. -/
def caughtCall (result : Except String Unit) : HandlerOutcome :=
  match result with
  | Except.ok _ => ⟨1, [], Option.none⟩
  | Except.error msg => ⟨1, [msg], Option.none⟩

/-- Call site with no `try`/`catch` on its path: a thrown message escapes
as an unhandled rejection and no alert is shown. -/
def uncaughtCall (result : Except String Unit) : HandlerOutcome :=
  match result with
  | Except.ok _ => ⟨1, [], Option.none⟩
  | Except.error msg => ⟨1, [], Option.some msg⟩

/-- Icon-upload handler (app.js lines 177-190): its `POST /api/icons`
sits inside `try`/`catch` with `alert`. -/
def iconUploadHandler (result : Except String Unit) : HandlerOutcome :=
  caughtCall result

/-- Render-button handler (app.js lines 210-229): its `POST /api/render`
sits inside `try`/`catch` with `alert`. -/
def renderBtnHandler (result : Except String Unit) : HandlerOutcome :=
  caughtCall result

/-- Save-layout handler (app.js lines 198-208): its
`POST /api/layout-presets` has no `try`/`catch`. -/
def saveLayoutHandler (result : Except String Unit) : HandlerOutcome :=
  uncaughtCall result

/-- The `GET /api/colors` of `loadColors` (app.js lines 41-54); its only
call site is the startup sequence `init` (line 315), which has no
`try`/`catch`. -/
def loadColorsAtStartup (result : Except String Unit) : HandlerOutcome :=
  uncaughtCall result

/-- The `GET /api/layout-presets` of `loadLayouts` (app.js lines 56-70)
called from the startup sequence (line 316): no `try`/`catch`. -/
def loadLayoutsAtStartup (result : Except String Unit) : HandlerOutcome :=
  uncaughtCall result

/-- The `GET /api/layout-presets` of `loadLayouts` called from the
save-layout click handler after a successful save (app.js line 207);
that handler has no `try`/`catch` either. -/
def loadLayoutsInSaveHandler (result : Except String Unit) :
    HandlerOutcome :=
  uncaughtCall result

/-- The `GET /api/icons` of `loadIcons` (app.js lines 83-107) called from
the startup sequence (line 317): no `try`/`catch`. -/
def loadIconsAtStartup (result : Except String Unit) : HandlerOutcome :=
  uncaughtCall result

/-- The `GET /api/icons` of `loadIcons` called from inside the icon-upload
handler's `try`/`catch` (app.js line 186): a failure here is alerted. -/
def loadIconsInUpload (result : Except String Unit) : HandlerOutcome :=
  caughtCall result

/-- The `GET /api/renders` of `loadHistory` (app.js lines 291-311) called
from the startup sequence (line 318): no `try`/`catch`. -/
def loadHistoryAtStartup (result : Except String Unit) : HandlerOutcome :=
  uncaughtCall result

/-- The `GET /api/renders` of `loadHistory` called from inside the
render-button handler's `try`/`catch` (app.js line 224): a failure here
is alerted. -/
def loadHistoryInRenderBtn (result : Except String Unit) :
    HandlerOutcome :=
  caughtCall result

/-- Network effect of the save-layout click handler (app.js lines
198-208): `prompt` yields `null` on cancel or a string; `if (!name)
return;` sends nothing for `null` or the empty string, otherwise one
`POST /api/layout-presets` with body `{name, params}` where `params` is
`currentLayoutParams()`. -/
inductive SaveOutcome where
  | noRequest
  | request (name : String) (params : LayoutParams)
deriving DecidableEq, Repr

/-- The save-layout click handler's decision (app.js lines 198-206). -/
def saveLayoutClick (promptResult : Option String) (s : EditorState) :
    SaveOutcome :=
  match promptResult with
  | Option.none => SaveOutcome.noRequest
  | Option.some name =>
      if name = "" then SaveOutcome.noRequest
      else SaveOutcome.request name (currentLayoutParams s)

/-- Concrete icon record used by witnesses. -/
def testIcon : Icon where
  id := "ic1"
  name := "bell"
  preview_url := "/static/icons/bell.png"

/-- Concrete state in which the icon box and the text box overlap: icon
square of side 450 around (100, 100), text box from (50, 50) of height 48. -/
def sOverlap : EditorState :=
  { initState with
    selectedIcon := Option.some testIcon
    iconPosition := ⟨100, 100⟩
    iconScale := 1
    textPosition := ⟨50, 50⟩
    textSize := 48 }

/-- Concrete state mid-drag of the icon. -/
def sIconDrag : EditorState :=
  { initState with
    selectedIcon := Option.some testIcon
    dragging := DragTarget.icon }

/-- Concrete state mid-drag of the text. -/
def sTextDrag : EditorState :=
  { initState with dragging := DragTarget.text }

/-- Concrete persisted preset whose `corner_radius_px` is 99, not 30. -/
def preset99 : LayoutPreset where
  id := "p99"
  name := "Round99"
  params :=
    { name := "Round99"
      corner_radius_px := 99
      icon := ⟨200, 200, 1/2⟩
      text := ⟨10, 400, 30, "semibold", "left"⟩ }

/-- C1.  Round-trip law: applying the document `currentLayoutParams s`
(wrapped in any preset record) to any state `t` reproduces the four
geometric fields of `s` exactly, while `text`, `selectedColor` and
`selectedIcon` keep the values of the state it is applied to. -/
theorem roundtrip_layout (s t : EditorState) (pid pname : String) :
    (applyLayout ⟨pid, pname, currentLayoutParams s⟩ t).iconPosition =
        s.iconPosition ∧
    (applyLayout ⟨pid, pname, currentLayoutParams s⟩ t).iconScale =
        s.iconScale ∧
    (applyLayout ⟨pid, pname, currentLayoutParams s⟩ t).textPosition =
        s.textPosition ∧
    (applyLayout ⟨pid, pname, currentLayoutParams s⟩ t).textSize =
        s.textSize ∧
    (applyLayout ⟨pid, pname, currentLayoutParams s⟩ t).text = t.text ∧
    (applyLayout ⟨pid, pname, currentLayoutParams s⟩ t).selectedColor =
        t.selectedColor ∧
    (applyLayout ⟨pid, pname, currentLayoutParams s⟩ t).selectedIcon =
        t.selectedIcon :=
  ⟨rfl, rfl, rfl, rfl, rfl, rfl, rfl⟩

/-- C2.  Frame condition of `applyLayout`: the four geometric fields get
exactly the document's values and every other field of the state (content
fields, drag state and the cached server lists) is unchanged. -/
theorem applyLayout_frame (layout : LayoutPreset) (s : EditorState) :
    (applyLayout layout s).iconPosition =
        ⟨layout.params.icon.x, layout.params.icon.y⟩ ∧
    (applyLayout layout s).iconScale = layout.params.icon.scale ∧
    (applyLayout layout s).textPosition =
        ⟨layout.params.text.x, layout.params.text.y⟩ ∧
    (applyLayout layout s).textSize = layout.params.text.font_size ∧
    (applyLayout layout s).text = s.text ∧
    (applyLayout layout s).selectedColor = s.selectedColor ∧
    (applyLayout layout s).selectedIcon = s.selectedIcon ∧
    (applyLayout layout s).dragging = s.dragging ∧
    (applyLayout layout s).colors = s.colors ∧
    (applyLayout layout s).layouts = s.layouts ∧
    (applyLayout layout s).icons = s.icons :=
  ⟨rfl, rfl, rfl, rfl, rfl, rfl, rfl, rfl, rfl, rfl, rfl⟩

/-- C6.  The render projector is read-only on the model: one render pass
returns the state unchanged, every field included, and only emits drawing
operations. -/
theorem renderPreview_readonly (s : EditorState) :
    (renderPreview s).1 = s ∧
    (renderPreview s).1.selectedIcon = s.selectedIcon ∧
    (renderPreview s).1.selectedColor = s.selectedColor ∧
    (renderPreview s).1.text = s.text ∧
    (renderPreview s).1.iconPosition = s.iconPosition ∧
    (renderPreview s).1.iconScale = s.iconScale ∧
    (renderPreview s).1.textPosition = s.textPosition ∧
    (renderPreview s).1.textSize = s.textSize ∧
    (renderPreview s).1.dragging = s.dragging :=
  ⟨rfl, rfl, rfl, rfl, rfl, rfl, rfl, rfl, rfl⟩

/-- C10.  The canonical document of `currentLayoutParams` carries the
constants `name = "Custom"`, `corner_radius_px = 30`,
`text.font_weight = "semibold"` and `text.align = "left"` for every
editor state, hence independently of any previously applied preset. -/
theorem currentLayoutParams_constants (s : EditorState) :
    (currentLayoutParams s).name = "Custom" ∧
    (currentLayoutParams s).corner_radius_px = 30 ∧
    (currentLayoutParams s).text.font_weight = "semibold" ∧
    (currentLayoutParams s).text.align = "left" :=
  ⟨rfl, rfl, rfl, rfl⟩

/-- C7.  Save-layout validation: an empty prompt answer (like a cancelled
prompt) sends no request at all, while any non-empty name results in
exactly one delegated request carrying that name and the canonical
document of the current state. -/
theorem saveLayout_validation (s : EditorState) (name : String)
    (h : name ≠ "") :
    saveLayoutClick (Option.some "") s = SaveOutcome.noRequest ∧
    saveLayoutClick Option.none s = SaveOutcome.noRequest ∧
    saveLayoutClick (Option.some name) s =
      SaveOutcome.request name (currentLayoutParams s) := by
  refine ⟨rfl, rfl, ?_⟩
  simp [saveLayoutClick, h]

/-- Witness for C7 at the concrete name "My Layout" and the initial
state. -/
theorem saveLayout_validation_witness :
    ("My Layout" ≠ "") ∧
    (saveLayoutClick (Option.some "") initState = SaveOutcome.noRequest ∧
     saveLayoutClick Option.none initState = SaveOutcome.noRequest ∧
     saveLayoutClick (Option.some "My Layout") initState =
       SaveOutcome.request "My Layout" (currentLayoutParams initState)) :=
  ⟨by decide, saveLayout_validation initState "My Layout" (by decide)⟩

/-- C8 counterexample: after applying the concrete preset `preset99`
(whose `corner_radius_px` is 99), the render pass still clips with
radius 30, so the clip radius is not the `corner_radius_px` of the
active layout. -/
theorem clipRadius_not_from_layout :
    preset99.params.corner_radius_px = 99 ∧
    clipRadius (renderPreview (applyLayout preset99 initState)).2 =
      Option.some 30 ∧
    clipRadius (renderPreview (applyLayout preset99 initState)).2 ≠
      Option.some preset99.params.corner_radius_px := by
  refine ⟨rfl, rfl, ?_⟩
  decide

/-- C8 amended: every render pass, whatever preset was applied last,
starts by clipping to a rounded rectangle spanning the full 450 by 450
canvas with the constant corner radius 30 and filling the clipped region
with `selectedColor` (which `applyLayout` leaves unchanged). -/
theorem render_background_constant_clip (layout : LayoutPreset)
    (s : EditorState) :
    (renderPreview (applyLayout layout s)).2.take 7 =
      [SurfaceOp.clearRect 0 0 450 450, SurfaceOp.save,
       SurfaceOp.roundedRectPath 0 0 450 450 30, SurfaceOp.clip,
       SurfaceOp.setFillStyle s.selectedColor,
       SurfaceOp.fillRect 0 0 450 450, SurfaceOp.restore] :=
  rfl

/-- C9 counterexample: when the save-layout `POST /api/layout-presets`
fails with message "boom", no alert is shown; the rejection escapes the
handler unhandled, contradicting the claim that every failed request is
surfaced as a blocking alert. -/
theorem saveLayout_failure_not_alerted :
    (saveLayoutHandler (Except.error "boom")).alerts = [] ∧
    (saveLayoutHandler (Except.error "boom")).unhandled =
      Option.some "boom" :=
  ⟨rfl, rfl⟩

/-- C9 amended: whether a failed request is alerted depends on its call
site, not on its endpoint.  The four requests issued inside the
icon-upload and render-button handlers' `try`/`catch` (the upload POST,
the icon-list reload after an upload, the render POST, and the history
reload after a render) surface the thrown message as exactly one alert;
the requests on uncaught paths (colors, icon list, layout-preset list and
history at startup, and the layout-preset save POST and its list reload
in the save-layout handler) show no alert and escape as unhandled
rejections carrying the message.  In every case the request is issued
exactly once (no retry), and the thrown message is the `error` field of
the JSON body when present and non-empty, else "Request failed". -/
theorem failed_request_surfacing (msg : String) :
    iconUploadHandler (Except.error msg) = ⟨1, [msg], Option.none⟩ ∧
    loadIconsInUpload (Except.error msg) = ⟨1, [msg], Option.none⟩ ∧
    renderBtnHandler (Except.error msg) = ⟨1, [msg], Option.none⟩ ∧
    loadHistoryInRenderBtn (Except.error msg) = ⟨1, [msg], Option.none⟩ ∧
    saveLayoutHandler (Except.error msg) = ⟨1, [], Option.some msg⟩ ∧
    loadLayoutsInSaveHandler (Except.error msg) =
      ⟨1, [], Option.some msg⟩ ∧
    loadColorsAtStartup (Except.error msg) = ⟨1, [], Option.some msg⟩ ∧
    loadLayoutsAtStartup (Except.error msg) = ⟨1, [], Option.some msg⟩ ∧
    loadIconsAtStartup (Except.error msg) = ⟨1, [], Option.some msg⟩ ∧
    loadHistoryAtStartup (Except.error msg) = ⟨1, [], Option.some msg⟩ ∧
    (∀ ef : Option String,
      fetchJSON (HttpResponse.fail ef : HttpResponse Unit) =
        Except.error (fetchJSONErrorMessage ef)) ∧
    (∀ e : String, fetchJSONErrorMessage (Option.some e) =
        if e = "" then "Request failed" else e) ∧
    fetchJSONErrorMessage Option.none = "Request failed" :=
  ⟨rfl, rfl, rfl, rfl, rfl, rfl, rfl, rfl, rfl, rfl,
   fun _ => rfl, fun _ => rfl, rfl⟩

/-- C3.  Hit-test priority: with an icon selected, a pointer-down inside
the icon square resolves the drag target to the icon even when the point
also lies inside the text bounding box. -/
theorem mousedown_icon_priority (s : EditorState) (px py tw : ℚ)
    (hsel : s.selectedIcon.isSome = true)
    (hicon : iconHit s px py = true)
    (_htext : textHit s px py tw = true) :
    (mousedown s px py tw).dragging = DragTarget.icon := by
  simp [mousedown, hsel, hicon]

/-- Witness for C3: in `sOverlap` the point (60, 60) with measured text
width 200 lies in both boxes, and the drag target resolves to the icon. -/
theorem mousedown_icon_priority_witness :
    sOverlap.selectedIcon.isSome = true ∧
    iconHit sOverlap 60 60 = true ∧
    textHit sOverlap 60 60 200 = true ∧
    (mousedown sOverlap 60 60 200).dragging = DragTarget.icon :=
  ⟨by decide, by norm_num [iconHit, sOverlap, initState],
    by norm_num [textHit, sOverlap, initState],
    mousedown_icon_priority sOverlap 60 60 200 (by decide)
      (by norm_num [iconHit, sOverlap, initState])
      (by norm_num [textHit, sOverlap, initState])⟩

/-- C4.  Drag snap: a pointer-move to (qx, qy) while the icon is the drag
target sets `iconPosition` to exactly that point, and symmetrically for
the text; no offset from the initial grab point is applied. -/
theorem mousemove_snap (s : EditorState) (qx qy : ℚ) :
    (s.dragging = DragTarget.icon →
      (mousemove s qx qy).iconPosition = ⟨qx, qy⟩) ∧
    (s.dragging = DragTarget.text →
      (mousemove s qx qy).textPosition = ⟨qx, qy⟩) := by
  constructor <;> intro hd <;> simp [mousemove, hd]

/-- Witness for C4 at concrete mid-drag states and pointer points. -/
theorem mousemove_snap_witness :
    (mousemove sIconDrag 10 20).iconPosition = ⟨10, 20⟩ ∧
    (mousemove sTextDrag 7 8).textPosition = ⟨7, 8⟩ :=
  ⟨(mousemove_snap sIconDrag 10 20).1 (by decide),
   (mousemove_snap sTextDrag 7 8).2 (by decide)⟩

/-- Helper for C5: every single event transition preserves the property
that the icon can be the drag target only while an icon is selected. -/
theorem step_preserves_icon_guard (s : EditorState) (e : Event)
    (h : s.dragging = DragTarget.icon → s.selectedIcon.isSome = true) :
    (step s e).dragging = DragTarget.icon →
      (step s e).selectedIcon.isSome = true := by
  cases e with
  | mousedown px py tw =>
      show (mousedown s px py tw).dragging = DragTarget.icon →
        (mousedown s px py tw).selectedIcon.isSome = true
      unfold mousedown
      by_cases hc : (s.selectedIcon.isSome && iconHit s px py) = true
      · rw [if_pos hc]
        intro _
        exact ((Bool.and_eq_true _ _).mp hc).1
      · rw [if_neg hc]
        by_cases ht : textHit s px py tw = true
        · rw [if_pos ht]
          intro hx
          exact absurd hx (by simp)
        · rw [if_neg ht]
          exact h
  | mousemove qx qy =>
      show (mousemove s qx qy).dragging = DragTarget.icon →
        (mousemove s qx qy).selectedIcon.isSome = true
      unfold mousemove
      cases hd : s.dragging with
      | none => exact h
      | icon => intro _; exact h hd
      | text => intro hx; simp at hx
  | mouseup => intro hx; exact absurd hx (by simp [step, mouseup])
  | mouseleave => intro hx; exact absurd hx (by simp [step, mouseleave])
  | selectIcon i => intro _; rfl
  | textInput t => exact h
  | colorSelect hex => exact h
  | colorCustom hex => exact h
  | iconScaleInput v => exact h
  | textSizeInput v => exact h
  | layoutSelect id =>
      cases hfind : s.layouts.find? fun l => l.id == id with
      | some l => simp only [step, hfind]; exact h
      | none => simp only [step, hfind]; exact h
  | loadColorsDone cs => exact h
  | loadLayoutsDone ls =>
      cases ls with
      | nil => exact h
      | cons l rest => exact h
  | loadIconsDone is => exact h

/-- C5.  Drag state machine invariant: in every state reachable from the
initial state by the event transitions, the drag target is one of the
three values none, icon or text, and it is the icon only while an icon is
selected. -/
theorem drag_state_invariant (s : EditorState) (h : Reachable s) :
    (s.dragging = DragTarget.none ∨ s.dragging = DragTarget.icon ∨
      s.dragging = DragTarget.text) ∧
    (s.dragging = DragTarget.icon → s.selectedIcon.isSome = true) := by
  refine ⟨?_, ?_⟩
  · cases s.dragging
    · exact Or.inl rfl
    · exact Or.inr (Or.inl rfl)
    · exact Or.inr (Or.inr rfl)
  · induction h with
    | init => intro hx; exact absurd hx (by decide)
    | step e hr ih => exact step_preserves_icon_guard _ e ih

/-- Witness for C5 at the concrete reachable state obtained from the
initial state by selecting `testIcon` and pressing the pointer at its
center. -/
theorem drag_state_invariant_witness :
    ((step (step initState (Event.selectIcon testIcon))
        (Event.mousedown 300 170 20)).dragging = DragTarget.none ∨
     (step (step initState (Event.selectIcon testIcon))
        (Event.mousedown 300 170 20)).dragging = DragTarget.icon ∨
     (step (step initState (Event.selectIcon testIcon))
        (Event.mousedown 300 170 20)).dragging = DragTarget.text) ∧
    ((step (step initState (Event.selectIcon testIcon))
        (Event.mousedown 300 170 20)).dragging = DragTarget.icon →
     (step (step initState (Event.selectIcon testIcon))
        (Event.mousedown 300 170 20)).selectedIcon.isSome = true) :=
  drag_state_invariant _
    (Reachable.step (Event.mousedown 300 170 20)
      (Reachable.step (Event.selectIcon testIcon) Reachable.init))
